import Mathlib

/-!
Shallow embedding of the goapi service (RashedMaaitah/goapi).

The embedded code:
- `api/api.go`: the response/error types (`CoinBalanceParams`,
  `CoinBalanceResponse`, `Error`), `writeError`, `RequestErrorHandler`,
  `InternalErrorHandler`.
- `internal/tools/mockdb.go`: the mock store data (`mockLoginDetails`,
  `mockCoinDetails`) and its methods `GetUserLoginDetails`, `GetUserCoins`,
  `SetupDatabase`.
- `internal/middleware/authorization.go` (`Authorization`) and
  `internal/handlers/get_coin_balance.go` (`GetCoinBalance`), whose code is
  reproduced in the repository README.

Go pointers that may be nil are embedded as `Option`; a nil-pointer
dereference is embedded as the explicit outcome `Outcome.crash`.
Go `int64` is embedded as `Int` (the balances are only stored and
returned, never operated on, so no wrap-around can occur) and Go `int`
status codes as `Nat`.
-/

namespace GoAPI

/-- `type LoginDetails struct { AuthToken string; Username string }`
(internal/tools). -/
structure LoginDetails where
  AuthToken : String
  Username : String
deriving DecidableEq, Repr

/-- `type CoinDetails struct { Coins int64; Username string }`
(internal/tools). -/
structure CoinDetails where
  Coins : Int
  Username : String
deriving DecidableEq, Repr

/-- `type CoinBalanceParams struct { Username string }` (api/api.go). -/
structure CoinBalanceParams where
  Username : String
deriving DecidableEq, Repr

/-- `type CoinBalanceResponse struct { StatusCode int; Balance int64 }`
(api/api.go). -/
structure CoinBalanceResponse where
  StatusCode : Nat
  Balance : Int
deriving DecidableEq, Repr

/-- `type Error struct { StatusCode int; Message string }` (api/api.go). -/
structure Error where
  StatusCode : Nat
  Message : String
deriving DecidableEq, Repr

/-- The JSON body written to the wire: either a `CoinBalanceResponse`
(success path of `GetCoinBalance`) or an `Error` (the `writeError` path). -/
inductive Body where
  | coins (c : CoinBalanceResponse)
  | failure (e : Error)
deriving DecidableEq, Repr

/-- One HTTP response as the Go code assembles it: the `Content-Type`
header value, the status code passed to `WriteHeader` (or the implicit
200 when the handler writes a body without calling `WriteHeader`), and
the JSON-encoded body. -/
structure HttpResponse where
  contentType : String
  status : Nat
  body : Body
deriving DecidableEq, Repr

/-- Serialization of the body exactly as `json.NewEncoder(w).Encode`
renders these two structs: field names are the Go field names, integers
in decimal, and a trailing newline appended by `Encoder.Encode`. -/
def encodeJSON : Body → String
  | .coins c =>
    "\x7b\"StatusCode\":" ++ toString c.StatusCode ++ ",\"Balance\":" ++
      toString c.Balance ++ "\x7d\n"
  | .failure e =>
    "\x7b\"StatusCode\":" ++ toString e.StatusCode ++ ",\"Message\":\"" ++
      e.Message ++ "\"\x7d\n"

/-- `func writeError(w http.ResponseWriter, message string, statusCode int)`
(api/api.go): builds `Error{StatusCode: statusCode, Message: message}`,
sets `Content-Type: application/json`, calls `w.WriteHeader(statusCode)`,
and encodes the struct as the body. -/
def writeError (message : String) (statusCode : Nat) : HttpResponse :=
  { contentType := "application/json"
    status := statusCode
    body := .failure { StatusCode := statusCode, Message := message } }

/-- `RequestErrorHandler = func(w, err) { writeError(w, err.Error(),
http.StatusBadRequest) }` (api/api.go); `http.StatusBadRequest = 400`.
The argument is the `err.Error()` string of the passed error. -/
def RequestErrorHandler (errMessage : String) : HttpResponse :=
  writeError errMessage 400

/-- `InternalErrorHandler = func(w) { writeError(w, "An Unexpected Error
Occured.", http.StatusInternalServerError) }` (api/api.go);
`http.StatusInternalServerError = 500`. -/
def InternalErrorHandler : HttpResponse :=
  writeError "An Unexpected Error Occured." 500

/-- Modelled from the spec: the `UnAuthorizedError` value of
`internal/middleware` is referenced by the middleware code in the README
but its declaration file is not under src/; the spec gives its message as
"Invalid username or token.". Only its text, not its use sites, is
modelled. -/
def UnAuthorizedError : String := "Invalid username or token."

/-- `mockLoginDetails` (internal/tools/mockdb.go), as the lookup function
a Go map denotes: three fixed credential records. -/
def mockLoginDetails (username : String) : Option LoginDetails :=
  if username = "alex" then some { AuthToken := "123ABC", Username := "alex" }
  else if username = "maria" then some { AuthToken := "456DEF", Username := "maria" }
  else if username = "john" then some { AuthToken := "789GHI", Username := "john" }
  else none

/-- `mockCoinDetails` (internal/tools/mockdb.go), as the lookup function
a Go map denotes: three fixed balance records. -/
def mockCoinDetails (username : String) : Option CoinDetails :=
  if username = "alex" then some { Coins := 1000, Username := "alex" }
  else if username = "maria" then some { Coins := 2500, Username := "maria" }
  else if username = "john" then some { Coins := 500, Username := "john" }
  else none

/-- The `DatabaseInterface` of internal/tools: the two lookups return
`*LoginDetails` / `*CoinDetails` (nil for a missing record, embedded as
`none`); `SetupDatabase() error` returns `some msg` for a non-nil error. -/
structure DatabaseInterface where
  GetUserLoginDetails : String → Option LoginDetails
  GetUserCoins : String → Option CoinDetails
  SetupDatabase : Option String

/-- The `mockDB` implementation: `GetUserLoginDetails` and `GetUserCoins`
index the two mock maps (after a simulated 1-second sleep, which has no
effect on the returned value and is not modelled), and `SetupDatabase`
returns nil. -/
def mockDatabase : DatabaseInterface :=
  { GetUserLoginDetails := mockLoginDetails
    GetUserCoins := mockCoinDetails
    SetupDatabase := none }

/-- The mock store state: the two package-level maps of
internal/tools/mockdb.go, as data, for stating that an operation leaves
them untouched. -/
structure MockState where
  logins : String → Option LoginDetails
  coins : String → Option CoinDetails

/-- The fixed reference dataset of mockdb.go as a `MockState`. -/
def mockState : MockState :=
  { logins := mockLoginDetails, coins := mockCoinDetails }

/-- `func (d *mockDB) SetupDatabase() error { return nil }` with the
store data passed explicitly: the body is a single `return nil`, so the
returned error is `none` and the state is returned unchanged. -/
def SetupDatabase (s : MockState) : Option String × MockState :=
  (none, s)

/-- An inbound request as the gate and handler read it:
`r.URL.Query().Get("username")` and `r.Header.Get("Authorization")`,
both of which yield `""` when the parameter or header is absent. -/
structure Request where
  username : String
  token : String
deriving DecidableEq, Repr

/-- Result of running the `Authorization` middleware on one request:
`response = some resp` means the gate wrote `resp` and returned without
calling `next.ServeHTTP`; `response = none` means the request was
forwarded unchanged. `lookups` counts the calls to
`GetUserLoginDetails` the gate performed. -/
structure GateResult where
  response : Option HttpResponse
  lookups : Nat
deriving DecidableEq, Repr

/-- `func Authorization(next http.Handler) http.Handler`
(internal/middleware/authorization.go, reproduced in the README):
read `username` from the query and `token` from the `Authorization`
header; if either is empty, reject via `RequestErrorHandler` with
`UnAuthorizedError` before any store access; otherwise look the user up
and reject the same way when the record is nil or the token differs
(`loginDetails == nil || token != loginDetails.AuthToken`); else forward. -/
def Authorization (db : DatabaseInterface) (r : Request) : GateResult :=
  if r.username = "" ∨ r.token = "" then
    { response := some (RequestErrorHandler UnAuthorizedError), lookups := 0 }
  else
    match db.GetUserLoginDetails r.username with
    | none =>
      { response := some (RequestErrorHandler UnAuthorizedError), lookups := 1 }
    | some loginDetails =>
      if r.token ≠ loginDetails.AuthToken then
        { response := some (RequestErrorHandler UnAuthorizedError), lookups := 1 }
      else
        { response := none, lookups := 1 }

/-- The outcome of the handler (and of the whole pipeline): either a
response written to the wire, or a runtime fault. `crash` embeds the
panic a Go nil-pointer dereference raises. -/
inductive Outcome where
  | resp (r : HttpResponse)
  | crash
deriving DecidableEq, Repr

/-- Result of running `GetCoinBalance` on one request: the outcome, a
flag for whether `log.Error` ran, and a flag for whether `GetUserCoins`
was called. -/
structure HandlerResult where
  outcome : Outcome
  logged : Bool
  storeQueried : Bool
deriving DecidableEq, Repr

/-- `func GetCoinBalance(w http.ResponseWriter, r *http.Request)`
(internal/handlers/get_coin_balance.go, reproduced in the README), taking
the result of `decoder.Decode(&params, r.URL.Query())` as an argument.

The decode-failure branch is modelled from the spec: the handler file
itself is not under src/ and the README excerpt elides its error checks,
but the spec (§4.2 step 1, §7) and the README's own error-handling
excerpt (`if err != nil { log.Error(err); api.InternalErrorHandler(w);
return }`) fix it: on failure, log and write the internal error, with no
store query.

On success the code runs `tokenDetails := (*database).GetUserCoins(...)`
and then reads `tokenDetails.Coins` with no nil check, so an absent
record is a nil dereference: `Outcome.crash`. Otherwise it builds
`CoinBalanceResponse{Balance: tokenDetails.Coins, StatusCode:
http.StatusOK}`, sets `Content-Type: application/json` and encodes it;
`WriteHeader` is never called, so the status on the wire is the implicit
200. -/
def GetCoinBalance (db : DatabaseInterface)
    (decoded : Except String CoinBalanceParams) : HandlerResult :=
  match decoded with
  | .error _ =>
    { outcome := .resp InternalErrorHandler, logged := true, storeQueried := false }
  | .ok params =>
    match db.GetUserCoins params.Username with
    | none => { outcome := .crash, logged := false, storeQueried := true }
    | some tokenDetails =>
      { outcome := .resp
          { contentType := "application/json"
            status := 200
            body := .coins { StatusCode := 200, Balance := tokenDetails.Coins } }
        logged := false
        storeQueried := true }

/-- Modelled from the spec: the gorilla/schema decoder is an external
library. For a well-formed query carrying the single recognized field
`Username` (the `Request` embedding), decoding succeeds and returns that
field; the failure branch is exercised by feeding `GetCoinBalance` an
`Except.error` directly. -/
def decodeQuery (r : Request) : Except String CoinBalanceParams :=
  .ok { Username := r.username }

/-- The request pipeline registered in internal/handlers/api.go for
`GET /account/coins`: the `Authorization` middleware runs first; if it
wrote a rejection the handler is never reached, otherwise the unchanged
request goes to `GetCoinBalance`. -/
def pipeline (db : DatabaseInterface) (r : Request) : Outcome :=
  match (Authorization db r).response with
  | some resp => .resp resp
  | none => (GetCoinBalance db (decodeQuery r)).outcome

/-- Serving a sequence of inbound requests against the (read-only)
store: each request runs through the full pipeline in turn. -/
def serve (db : DatabaseInterface) : List Request → List Outcome
  | [] => []
  | r :: rs => pipeline db r :: serve db rs

/-!
Heap model for the pointer-freshness claim. Go map indexing
(`clientData, ok := mockLoginDetails[username]`) copies the value into a
local variable, and `return &clientData` makes that escaping local a
fresh heap allocation; the returned pointer never points into the map.
The model makes the allocations explicit: `loginCells` / `coinCells` are
the records handed out so far, a returned pointer is an index into them,
and the store maps are a separate component that mutation of a cell
cannot reach — exactly the separation the Go code establishes. -/

/-- The mock store's maps together with the cells allocated for records
returned to callers. -/
structure HeapState where
  logins : String → Option LoginDetails
  coins : String → Option CoinDetails
  loginCells : List LoginDetails
  coinCells : List CoinDetails

/-- The initial heap: the fixed mock dataset and no allocated cells. -/
def mockHeap : HeapState :=
  { logins := mockLoginDetails, coins := mockCoinDetails
    loginCells := [], coinCells := [] }

/-- `GetUserLoginDetails` on the heap model: index the map; on a miss
return nil; on a hit copy the record into a fresh cell and return its
address. -/
def GetUserLoginDetailsOp (s : HeapState) (u : String) :
    Option Nat × HeapState :=
  match s.logins u with
  | none => (none, s)
  | some d =>
    (some s.loginCells.length, { s with loginCells := s.loginCells ++ [d] })

/-- `GetUserCoins` on the heap model, same shape. -/
def GetUserCoinsOp (s : HeapState) (u : String) :
    Option Nat × HeapState :=
  match s.coins u with
  | none => (none, s)
  | some d =>
    (some s.coinCells.length, { s with coinCells := s.coinCells ++ [d] })

/-- A caller action against the store: a lookup, or an arbitrary
mutation through a previously returned pointer (an in-place overwrite of
the record behind address `addr`). -/
inductive StoreOp where
  | lookupLogin (u : String)
  | lookupCoins (u : String)
  | mutateLogin (addr : Nat) (v : LoginDetails)
  | mutateCoins (addr : Nat) (v : CoinDetails)

/-- Effect of one caller action on the heap. -/
def stepOp (s : HeapState) : StoreOp → HeapState
  | .lookupLogin u => (GetUserLoginDetailsOp s u).2
  | .lookupCoins u => (GetUserCoinsOp s u).2
  | .mutateLogin addr v => { s with loginCells := s.loginCells.set addr v }
  | .mutateCoins addr v => { s with coinCells := s.coinCells.set addr v }

/-- Running a sequence of caller actions. -/
def runOps (s : HeapState) : List StoreOp → HeapState
  | [] => s
  | op :: ops => runOps (stepOp s op) ops

/-- A store implementation of the same `DatabaseInterface` whose login
and balance tables diverge: the identity `bob` has a credential record
(token `TOKEN`) but no balance record. The spec directs constructing such
a case even though the mock tables happen to agree. -/
def divergedDatabase : DatabaseInterface :=
  { GetUserLoginDetails := fun u =>
      if u = "bob" then some { AuthToken := "TOKEN", Username := "bob" }
      else mockLoginDetails u
    GetUserCoins := mockCoinDetails
    SetupDatabase := none }

/-- The status code the JSON body itself carries. -/
def bodyStatusCode : Body → Nat
  | .coins c => c.StatusCode
  | .failure e => e.StatusCode

/-- A concrete caller interaction used to exhibit the heap model: look
up `alex`, then overwrite the returned record in place. -/
def demoOps : List StoreOp :=
  [StoreOp.lookupLogin "alex",
   StoreOp.mutateLogin 0 { AuthToken := "HACKED", Username := "alex" }]

/-- C1: for every request whose username and Authorization header form a
credential pair present in the store and whose identity has a balance
record, the pipeline responds with status 200 and the Balance field
equal to the stored balance. -/
theorem c1_valid_request_success (db : DatabaseInterface) (u t : String)
    (d : LoginDetails) (c : CoinDetails)
    (hu : u ≠ "") (ht : t ≠ "")
    (hd : db.GetUserLoginDetails u = some d) (htok : t = d.AuthToken)
    (hc : db.GetUserCoins u = some c) :
    pipeline db { username := u, token := t } =
      Outcome.resp { contentType := "application/json"
                     status := 200
                     body := .coins { StatusCode := 200, Balance := c.Coins } } := by
  subst htok
  have hne : ¬(u = "" ∨ d.AuthToken = "") := by
    intro h
    rcases h with h | h
    · exact hu h
    · exact ht h
  simp [pipeline, Authorization, decodeQuery, GetCoinBalance, hd, hc, hne]

/-- C1 witness: GET /account/coins?username=alex with header
Authorization: 123ABC against the mock store yields the 200 response
with Balance 1000, serialized as the expected JSON. -/
theorem c1_valid_request_success_witness :
    pipeline mockDatabase { username := "alex", token := "123ABC" } =
      Outcome.resp { contentType := "application/json"
                     status := 200
                     body := .coins { StatusCode := 200, Balance := 1000 } } ∧
    encodeJSON (Body.coins { StatusCode := 200, Balance := 1000 }) =
      "\x7b\"StatusCode\":200,\"Balance\":1000\x7d\n" :=
  ⟨c1_valid_request_success mockDatabase "alex" "123ABC"
      { AuthToken := "123ABC", Username := "alex" }
      { Coins := 1000, Username := "alex" }
      (by decide) (by decide) rfl rfl rfl,
   rfl⟩

/-- C2: the claim asks for a 404 response when an authorized identity
has no balance record, but the handler dereferences the `GetUserCoins`
result without a nil check: with a store whose credential table knows
`bob` (token `TOKEN`) while the balance table does not, the request
`username=bob`, `Authorization: TOKEN` passes the gate and the pipeline
crashes instead of responding; the handler alone on the mock store with
an unknown username crashes the same way. -/
theorem c2_absent_balance_crash :
    pipeline divergedDatabase { username := "bob", token := "TOKEN" } =
      Outcome.crash ∧
    (GetCoinBalance mockDatabase (Except.ok { Username := "bob" })).outcome =
      Outcome.crash :=
  ⟨rfl, rfl⟩

/-- C3: for every request whose username query parameter or
Authorization header is empty or absent, the gate rejects with the
400 response and performs no store lookup. -/
theorem c3_missing_credentials_shortcircuit (db : DatabaseInterface)
    (r : Request) (h : r.username = "" ∨ r.token = "") :
    Authorization db r =
      { response := some (RequestErrorHandler UnAuthorizedError), lookups := 0 } ∧
    (RequestErrorHandler UnAuthorizedError).status = 400 := by
  refine ⟨?_, rfl⟩
  unfold Authorization
  rw [if_pos h]

/-- C3 witness: the fully empty request (no query parameter, no header)
against the mock store. -/
theorem c3_missing_credentials_shortcircuit_witness :
    Authorization mockDatabase { username := "", token := "" } =
      { response := some (RequestErrorHandler UnAuthorizedError), lookups := 0 } ∧
    (RequestErrorHandler UnAuthorizedError).status = 400 :=
  c3_missing_credentials_shortcircuit mockDatabase
    { username := "", token := "" } (Or.inl rfl)

/-- C4: a request with missing credentials and a request presenting a
username known to the store with a non-matching token receive the same
rejection: the two responses are equal (hence byte-identical once
serialized), and that common response is the 400 rejection. -/
theorem c4_rejections_indistinguishable (db : DatabaseInterface)
    (r1 r2 : Request) (d : LoginDetails)
    (h1 : r1.username = "" ∨ r1.token = "")
    (h2 : r2.username ≠ "") (h3 : r2.token ≠ "")
    (h4 : db.GetUserLoginDetails r2.username = some d)
    (h5 : r2.token ≠ d.AuthToken) :
    (Authorization db r1).response = (Authorization db r2).response ∧
    (Authorization db r1).response = some (RequestErrorHandler UnAuthorizedError) ∧
    (RequestErrorHandler UnAuthorizedError).status = 400 ∧
    Option.map (fun resp => encodeJSON resp.body) (Authorization db r1).response =
      Option.map (fun resp => encodeJSON resp.body) (Authorization db r2).response := by
  have hne : ¬(r2.username = "" ∨ r2.token = "") := by
    intro h
    rcases h with h | h
    · exact h2 h
    · exact h3 h
  have e1 : (Authorization db r1).response =
      some (RequestErrorHandler UnAuthorizedError) := by
    unfold Authorization
    rw [if_pos h1]
  have e2 : (Authorization db r2).response =
      some (RequestErrorHandler UnAuthorizedError) := by
    unfold Authorization
    rw [if_neg hne, h4]
    simp [h5]
  refine ⟨e1.trans e2.symm, e1, rfl, ?_⟩
  rw [e1, e2]

/-- C4 witness: the empty request versus `username=alex` with the wrong
token `WRONG` against the mock store. -/
theorem c4_rejections_indistinguishable_witness :
    (Authorization mockDatabase { username := "", token := "" }).response =
      (Authorization mockDatabase { username := "alex", token := "WRONG" }).response ∧
    (Authorization mockDatabase { username := "", token := "" }).response =
      some (RequestErrorHandler UnAuthorizedError) ∧
    (RequestErrorHandler UnAuthorizedError).status = 400 ∧
    Option.map (fun resp => encodeJSON resp.body)
        (Authorization mockDatabase { username := "", token := "" }).response =
      Option.map (fun resp => encodeJSON resp.body)
        (Authorization mockDatabase { username := "alex", token := "WRONG" }).response :=
  c4_rejections_indistinguishable mockDatabase
    { username := "", token := "" } { username := "alex", token := "WRONG" }
    { AuthToken := "123ABC", Username := "alex" }
    (Or.inl rfl) (by decide) (by decide) rfl (by decide)

/-- C5: whenever query-parameter decoding fails, the handler responds
with status 500 and the fixed body, logs the error, and performs no
balance-store query; the serialized body is the fixed JSON. -/
theorem c5_decode_failure_internal_error (db : DatabaseInterface)
    (msg : String) :
    GetCoinBalance db (Except.error msg) =
      { outcome := Outcome.resp
          { contentType := "application/json"
            status := 500
            body := .failure { StatusCode := 500
                               Message := "An Unexpected Error Occured." } }
        logged := true
        storeQueried := false } ∧
    encodeJSON (Body.failure
        { StatusCode := 500, Message := "An Unexpected Error Occured." }) =
      "\x7b\"StatusCode\":500,\"Message\":\"An Unexpected Error Occured.\"\x7d\n" :=
  ⟨rfl, rfl⟩

/-- C6: repeating the same request N times yields the identical outcome
each time: the pipeline is a pure function of the request over the
immutable store. -/
theorem c6_idempotent_replay (db : DatabaseInterface) (r : Request)
    (n : Nat) :
    serve db (List.replicate n r) = List.replicate n (pipeline db r) := by
  induction n with
  | zero => rfl
  | succ n ih => simp only [List.replicate_succ, serve, ih]

/-- C7: `SetupDatabase` of the mock store returns the nil error on every
call and leaves the store data unchanged. -/
theorem c7_setup_database_noop (s : MockState) :
    SetupDatabase s = (none, s) ∧ mockDatabase.SetupDatabase = none :=
  ⟨rfl, rfl⟩

/-- C8: the credential map and the balance map of the mock store have
exactly the key set alex, maria, john; consequently no request can drive
the full pipeline over the mock store into the nil-dereference crash. -/
theorem c8_keyset_agreement_no_crash :
    (∀ u, (mockLoginDetails u).isSome ↔ (u = "alex" ∨ u = "maria" ∨ u = "john")) ∧
    (∀ u, (mockCoinDetails u).isSome ↔ (u = "alex" ∨ u = "maria" ∨ u = "john")) ∧
    (∀ r : Request, pipeline mockDatabase r ≠ Outcome.crash) := by
  have hlog : ∀ u, (mockLoginDetails u).isSome ↔
      (u = "alex" ∨ u = "maria" ∨ u = "john") := by
    intro u
    unfold mockLoginDetails
    by_cases h1 : u = "alex"
    · simp [h1]
    · by_cases h2 : u = "maria"
      · simp [h1, h2]
      · by_cases h3 : u = "john"
        · simp [h1, h2, h3]
        · simp [h1, h2, h3]
  have hcoin : ∀ u, (mockCoinDetails u).isSome ↔
      (u = "alex" ∨ u = "maria" ∨ u = "john") := by
    intro u
    unfold mockCoinDetails
    by_cases h1 : u = "alex"
    · simp [h1]
    · by_cases h2 : u = "maria"
      · simp [h1, h2]
      · by_cases h3 : u = "john"
        · simp [h1, h2, h3]
        · simp [h1, h2, h3]
  refine ⟨hlog, hcoin, ?_⟩
  intro r
  by_cases h0 : r.username = "" ∨ r.token = ""
  · simp [pipeline, Authorization, h0]
  · rcases hld : mockLoginDetails r.username with _ | d
    · simp [pipeline, Authorization, mockDatabase, h0, hld]
    · by_cases htk : r.token ≠ d.AuthToken
      · simp [pipeline, Authorization, mockDatabase, h0, hld, htk]
      · have hsome : (mockCoinDetails r.username).isSome := by
          rw [hcoin r.username, ← hlog r.username, hld]
          rfl
        rcases hc : mockCoinDetails r.username with _ | c
        · rw [hc] at hsome
          simp at hsome
        · simp [pipeline, Authorization, mockDatabase, h0, hld, htk,
            GetCoinBalance, decodeQuery, hc]

/-- C8 witness: the membership equivalences and the no-crash guarantee
applied at concrete inputs. -/
theorem c8_keyset_agreement_no_crash_witness :
    (mockCoinDetails "alex").isSome ∧
    pipeline mockDatabase { username := "maria", token := "456DEF" } ≠
      Outcome.crash :=
  ⟨(c8_keyset_agreement_no_crash.2.1 "alex").mpr (Or.inl rfl),
   c8_keyset_agreement_no_crash.2.2 { username := "maria", token := "456DEF" }⟩

/-- Running caller actions never touches the store maps: lookups only
allocate fresh cells, and mutations only overwrite cells. -/
theorem runOps_preserves_maps (s : HeapState) (ops : List StoreOp) :
    (runOps s ops).logins = s.logins ∧ (runOps s ops).coins = s.coins := by
  induction ops generalizing s with
  | nil => exact ⟨rfl, rfl⟩
  | cons op ops ih =>
    have hstep : (stepOp s op).logins = s.logins ∧
        (stepOp s op).coins = s.coins := by
      cases op with
      | lookupLogin u =>
        rcases hs : s.logins u with _ | d <;>
          simp [stepOp, GetUserLoginDetailsOp, hs]
      | lookupCoins u =>
        rcases hs : s.coins u with _ | d <;>
          simp [stepOp, GetUserCoinsOp, hs]
      | mutateLogin addr v => exact ⟨rfl, rfl⟩
      | mutateCoins addr v => exact ⟨rfl, rfl⟩
    rcases ih (stepOp s op) with ⟨i1, i2⟩
    exact ⟨by rw [runOps, i1, hstep.1], by rw [runOps, i2, hstep.2]⟩

/-- C9: the store is immutable through its public interface: after any
sequence of lookups and arbitrary in-place mutations of previously
returned records, the store maps are unchanged, and every subsequent
lookup of a stored identity returns a fresh cell holding exactly the
original stored record. -/
theorem c9_store_immutable_through_pointers (s : HeapState)
    (ops : List StoreOp) :
    (runOps s ops).logins = s.logins ∧ (runOps s ops).coins = s.coins ∧
    (∀ u d, s.logins u = some d →
      (GetUserLoginDetailsOp (runOps s ops) u).1 =
        some (runOps s ops).loginCells.length ∧
      (GetUserLoginDetailsOp (runOps s ops) u).2.loginCells.get?
        (runOps s ops).loginCells.length = some d) ∧
    (∀ u c, s.coins u = some c →
      (GetUserCoinsOp (runOps s ops) u).1 =
        some (runOps s ops).coinCells.length ∧
      (GetUserCoinsOp (runOps s ops) u).2.coinCells.get?
        (runOps s ops).coinCells.length = some c) := by
  rcases runOps_preserves_maps s ops with ⟨h1, h2⟩
  refine ⟨h1, h2, ?_, ?_⟩
  · intro u d hd
    have hmap : (runOps s ops).logins u = some d := by rw [h1]; exact hd
    constructor
    · unfold GetUserLoginDetailsOp
      rw [hmap]
    · unfold GetUserLoginDetailsOp
      rw [hmap]
      exact List.get?_concat_length _ _
  · intro u c hc
    have hmap : (runOps s ops).coins u = some c := by rw [h2]; exact hc
    constructor
    · unfold GetUserCoinsOp
      rw [hmap]
    · unfold GetUserCoinsOp
      rw [hmap]
      exact List.get?_concat_length _ _

/-- C9 witness: on the mock heap, after looking up `alex` and
overwriting the returned record in place, a fresh lookup of `alex` still
returns the original stored record. -/
theorem c9_store_immutable_through_pointers_witness :
    (GetUserLoginDetailsOp (runOps mockHeap demoOps) "alex").2.loginCells.get?
      (runOps mockHeap demoOps).loginCells.length =
      some { AuthToken := "123ABC", Username := "alex" } :=
  ((c9_store_immutable_through_pointers mockHeap demoOps).2.2.1 "alex"
    { AuthToken := "123ABC", Username := "alex" } rfl).2

/-- C10: every response built by `writeError` (hence by
`RequestErrorHandler` and `InternalErrorHandler`) carries a header
status equal to the StatusCode field of its JSON body, and the
Content-Type header application/json. -/
theorem c10_error_responses_consistent (message : String)
    (statusCode : Nat) :
    (writeError message statusCode).status =
      bodyStatusCode (writeError message statusCode).body ∧
    (writeError message statusCode).contentType = "application/json" ∧
    (RequestErrorHandler message).status =
      bodyStatusCode (RequestErrorHandler message).body ∧
    (RequestErrorHandler message).contentType = "application/json" ∧
    InternalErrorHandler.status = bodyStatusCode InternalErrorHandler.body ∧
    InternalErrorHandler.contentType = "application/json" :=
  ⟨rfl, rfl, rfl, rfl, rfl, rfl⟩

end GoAPI
